import Mathlib

set_option linter.unusedVariables false

/-!
Verification of the crisis-signal / risk-scoring pipeline of
`streamlit_app.py` (Financial_crisis_Agent).

Numeric values are modelled as exact rationals. The demo-mode data path
(the `USE_REAL_DATA = False` branch with the `MOCK_DATA` table) is embedded
directly from the source; the real-data branch is an external network call,
which appears in the development as an abstract compute function
`String → String → FetchResult` passed explicitly where needed. The
`@st.cache_data` memoisation on `fetch_market_data` is modelled by an
explicit cache keyed by the call arguments (symbol, period).
-/

/-- A successful market summary, the dict built by `fetch_market_data`
(fields at lines 16 and 36-42 of the source). -/
structure MarketData where
  symbol : String
  current_price : ℚ
  price_change_percent : ℚ
  volatility_percent : ℚ
  volume : ℤ
  mode : String
deriving DecidableEq

/-- Result of a fetch: either the error dict `{"error": msg}` or a summary. -/
inductive FetchResult where
  | error (msg : String)
  | ok (data : MarketData)
deriving DecidableEq

/-- One value of the `MOCK_DATA` table (source lines 15-22). -/
structure MockEntry where
  current_price : ℚ
  price_change_percent : ℚ
  volatility_percent : ℚ
  volume : ℤ
deriving DecidableEq

/-- The `MOCK_DATA` dict, source lines 15-22. -/
def MOCK_DATA : List (String × MockEntry) :=
  [("AAPL", ⟨189.95, 2.15, 15.8, 52300000⟩),
   ("SPY", ⟨587.45, 1.82, 12.3, 68400000⟩),
   ("MSFT", ⟨416.32, 3.45, 18.2, 24500000⟩),
   ("BTC-USD", ⟨42156.78, 5.23, 45.2, 28300000⟩),
   ("TCS.NS", ⟨3850.50, 1.12, 14.5, 15600000⟩),
   ("INFY.NS", ⟨2450.75, -1.23, 16.2, 12400000⟩)]

/-- The `fetch_market_data` function (source lines 24-45) in its demo-mode
configuration (`USE_REAL_DATA = False`): look the symbol up in `MOCK_DATA`,
tag it with the symbol and DEMO mode, otherwise return the error message of
line 43. The period argument is passed through unused on this path. -/
def fetch_market_data (symbol : String) (period : String) : FetchResult :=
  match MOCK_DATA.find? (fun e => decide (e.1 = symbol)) with
  | some e => .ok { symbol := symbol, current_price := e.2.current_price,
                    price_change_percent := e.2.price_change_percent,
                    volatility_percent := e.2.volatility_percent,
                    volume := e.2.volume, mode := "DEMO" }
  | none => .error "Try: AAPL, SPY, MSFT, BTC-USD, TCS.NS, INFY.NS"

/-- The fetch with the default period "30d", as called at source line 83. -/
def demoFetch (symbol : String) : FetchResult :=
  fetch_market_data symbol "30d"

/-- A memoisation cache keyed by the fetch arguments (symbol, period),
modelling the `@st.cache_data` decorator at source line 24. -/
def Cache : Type := List ((String × String) × FetchResult)

/-- Memoised fetch: return the cached value for (symbol, period) when
present, otherwise run the underlying compute `f` and store its result. -/
def memoFetch (f : String → String → FetchResult) (cache : Cache)
    (symbol period : String) : FetchResult × Cache :=
  match cache.find? (fun e => decide (e.1 = (symbol, period))) with
  | some e => (e.2, cache)
  | none => (f symbol period, ((symbol, period), f symbol period) :: cache)

/-- The dict returned by `detect_crisis_signals` on a non-error summary
(source line 61). The detail values keep the raw percentage that line 54,
57 and 60 format to two decimals for display. -/
structure SignalReport where
  signals : List String
  signal_count : ℕ
  signal_details : List (String × ℚ)
deriving DecidableEq

/-- The `detect_crisis_signals` function, source lines 47-61, on a non-error
summary: three threshold checks in order, each appending one named signal
and one detail pair; `signal_count` is the length of the signals list. -/
def detect_crisis_signals (md : MarketData) : SignalReport :=
  let acc : List String × List (String × ℚ) := ([], [])
  let acc := if md.volatility_percent > 20 then
      (acc.1 ++ ["HIGH VOLATILITY (>20%)"],
       acc.2 ++ [("Volatility Alert", md.volatility_percent)]) else acc
  let acc := if md.price_change_percent < -5 then
      (acc.1 ++ ["SHARP DECLINE (>5%)"],
       acc.2 ++ [("Price Decline", md.price_change_percent)]) else acc
  let acc := if md.price_change_percent < -2 then
      (acc.1 ++ ["NEGATIVE MOMENTUM (<-2%)"],
       acc.2 ++ [("Momentum", md.price_change_percent)]) else acc
  { signals := acc.1, signal_count := acc.1.length, signal_details := acc.2 }

/-- The error passthrough of source lines 48-49 wrapped around detection. -/
def detect_crisis_signals_result : FetchResult → Except String SignalReport
  | .error msg => .error msg
  | .ok md => .ok (detect_crisis_signals md)

/-- The dict returned by `calculate_risk_score` (source lines 68-74). -/
structure RiskAssessment where
  risk_score : ℚ
  classification : String
  recommendation : String
  color : String
deriving DecidableEq

/-- The `calculate_risk_score` function, source lines 63-74: clamp the base
score, add the volatility factor, clamp again, then classify by the if-chain
of lines 67-74. -/
def calculate_risk_score (signal_count : ℕ) (volatility : ℚ) : RiskAssessment :=
  let base_score : ℚ := min ((signal_count : ℚ) * 25) 100
  let volatility_factor : ℚ := (volatility / 100) * 10
  let risk_score : ℚ := min (base_score + volatility_factor) 100
  if risk_score < 30 then
    { risk_score := risk_score, classification := "LOW",
      recommendation := "Continue monitoring", color := "green" }
  else if risk_score < 50 then
    { risk_score := risk_score, classification := "MODERATE",
      recommendation := "Pay attention to trends", color := "yellow" }
  else if risk_score < 70 then
    { risk_score := risk_score, classification := "HIGH",
      recommendation := "Consider risk mitigation", color := "orange" }
  else
    { risk_score := risk_score, classification := "CRITICAL",
      recommendation := "Immediate review required", color := "red" }

/-- Round half to even at integer precision, the behaviour of the built-in
round used at source lines 36 and 98. -/
def roundHalfToEven (q : ℚ) : ℤ :=
  if q - ⌊q⌋ < 1/2 then ⌊q⌋
  else if q - ⌊q⌋ > 1/2 then ⌊q⌋ + 1
  else if ⌊q⌋ % 2 = 0 then ⌊q⌋ else ⌊q⌋ + 1

/-- Round to two decimal places, `round(x, 2)` at source line 98. -/
def round2 (q : ℚ) : ℚ := (roundHalfToEven (q * 100) : ℚ) / 100

/-- One row of `portfolio_data`, built at source line 87. -/
structure PortfolioEntry where
  symbol : String
  price : ℚ
  change : ℚ
  volatility : ℚ
  risk_score : ℚ
  classification : String
  signals : ℕ
deriving DecidableEq

/-- The dict returned by `analyze_portfolio` on success (source line 98). -/
structure PortfolioResult where
  portfolio_data : List PortfolioEntry
  portfolio_risk : ℚ
  high_risk_assets : ℕ
  crisis_alerts : ℕ
  recommendation : String
  total_assets : ℕ
deriving DecidableEq

/-- Loop accumulators of `analyze_portfolio` (source lines 77-80). -/
structure LoopState where
  portfolio_data : List PortfolioEntry
  total_risk : ℚ
  high_risk_assets : ℕ
  crisis_alerts : ℕ
deriving DecidableEq

/-- The body of one loop iteration of `analyze_portfolio` for one symbol
(source lines 82-94): fetch the whitespace-trimmed symbol, and when the
result is not an error build the entry of line 87 — keeping the original,
untrimmed symbol string — from the detected signals and risk score. A fetch
error yields no entry (the symbol is skipped). -/
def entryFor (fetch : String → FetchResult) (symbol : String) : Option PortfolioEntry :=
  match fetch symbol.trim with
  | .error _ => none
  | .ok md =>
    let sig := detect_crisis_signals md
    let risk := calculate_risk_score sig.signal_count md.volatility_percent
    some { symbol := symbol, price := md.current_price,
           change := md.price_change_percent,
           volatility := md.volatility_percent,
           risk_score := risk.risk_score,
           classification := risk.classification,
           signals := sig.signal_count }

/-- The symbol loop of `analyze_portfolio` (source lines 81-94), updating
the four accumulators per successful symbol and skipping failures. -/
def portfolioLoop (fetch : String → FetchResult) : List String → LoopState → LoopState
  | [], st => st
  | symbol :: rest, st =>
      portfolioLoop fetch rest
        (match entryFor fetch symbol with
         | none => st
         | some e =>
           { portfolio_data := st.portfolio_data ++ [e],
             total_risk := st.total_risk + e.risk_score,
             high_risk_assets := st.high_risk_assets + (if e.risk_score > 50 then 1 else 0),
             crisis_alerts := st.crisis_alerts + (if e.signals > 0 then 1 else 0) })

/-- The `analyze_portfolio` function, source lines 76-98, over an explicit
fetch function (the source calls the module-level `fetch_market_data`, whose
demo instance is `demoFetch`): run the loop, return the error of line 96
when no entry was produced, otherwise average the risk and assemble the
result dict of line 98. -/
def analyze_portfolio (fetch : String → FetchResult) (symbols : List String) :
    Except String PortfolioResult :=
  let st := portfolioLoop fetch symbols ⟨[], 0, 0, 0⟩
  if st.portfolio_data.isEmpty then .error "No valid symbols"
  else
    let avg_portfolio_risk := st.total_risk / (st.portfolio_data.length : ℚ)
    .ok { portfolio_data := st.portfolio_data,
          portfolio_risk := round2 avg_portfolio_risk,
          high_risk_assets := st.high_risk_assets,
          crisis_alerts := st.crisis_alerts,
          recommendation :=
            if avg_portfolio_risk < 30 then "Monitor"
            else if avg_portfolio_risk < 50 then "Review Quarterly"
            else "Rebalance Immediately",
          total_assets := st.portfolio_data.length }

/-- A quiet summary used as a concrete test input: zero change and zero
volatility, so no signal fires and the risk score is zero. -/
def mdW : MarketData := ⟨"WIT", 100, 0, 0, 1000, "DEMO"⟩

/-- A fetch stub that succeeds on every symbol with the quiet summary. -/
def fetchOkW : String → FetchResult := fun _ => FetchResult.ok mdW

/-- A fetch stub that fails on every symbol. -/
def fetchErrW : String → FetchResult := fun _ => FetchResult.error "boom"

/-- The portfolio result of analysing the single symbol "A" through
`fetchOkW`. -/
def resW : PortfolioResult :=
  ⟨[⟨"A", 100, 0, 0, 0, "LOW", 0⟩], 0, 0, 0, "Monitor", 1⟩

/-- The portfolio result of analysing the single whitespace-padded symbol
" A " through `fetchOkW`. -/
def resW2 : PortfolioResult :=
  ⟨[⟨" A ", 100, 0, 0, 0, "LOW", 0⟩], 0, 0, 0, "Monitor", 1⟩

/-- The entry of `resW2`, carrying the untrimmed symbol. -/
def eW : PortfolioEntry := ⟨" A ", 100, 0, 0, 0, "LOW", 0⟩

/-! Helper lemmas shared across the claims. -/

/-- The risk score value is independent of the classification branch. -/
theorem risk_score_val (sc : ℕ) (vol : ℚ) :
    (calculate_risk_score sc vol).risk_score
      = min (min ((sc : ℚ) * 25) 100 + (vol / 100) * 10) 100 := by
  simp only [calculate_risk_score]
  split_ifs <;> rfl

/-- The classification is the if-chain of source lines 67-74 applied to the
final risk score. -/
theorem classification_val (sc : ℕ) (vol : ℚ) :
    (calculate_risk_score sc vol).classification
      = (if (calculate_risk_score sc vol).risk_score < 30 then "LOW"
         else if (calculate_risk_score sc vol).risk_score < 50 then "MODERATE"
         else if (calculate_risk_score sc vol).risk_score < 70 then "HIGH"
         else "CRITICAL") := by
  rw [risk_score_val]
  simp only [calculate_risk_score]
  split_ifs <;> rfl

/-- The signals list is the in-order concatenation of the three threshold
checks of source lines 52-60. -/
theorem detect_signals_val (md : MarketData) :
    (detect_crisis_signals md).signals
      = (if md.volatility_percent > 20 then ["HIGH VOLATILITY (>20%)"] else [])
        ++ (if md.price_change_percent < -5 then ["SHARP DECLINE (>5%)"] else [])
        ++ (if md.price_change_percent < -2 then ["NEGATIVE MOMENTUM (<-2%)"] else []) := by
  simp only [detect_crisis_signals]
  split_ifs <;> rfl

/-- The signal count is the length of the signals list (source line 61). -/
theorem detect_count_val (md : MarketData) :
    (detect_crisis_signals md).signal_count = (detect_crisis_signals md).signals.length := rfl

/-- At most three signals can fire. -/
theorem detect_count_le_three (md : MarketData) :
    (detect_crisis_signals md).signal_count ≤ 3 := by
  rw [detect_count_val, detect_signals_val]
  split_ifs <;> simp

/-! Claim theorems. -/

/-- C1: for every non-negative integer signal count and nonnegative
volatility percentage, the risk score equals
min(signal_count * 25 + (volatility / 100) * 10, 100) and lies in [0, 100]. -/
theorem C1_risk_score_formula (sc : ℕ) (vol : ℚ) (hvol : 0 ≤ vol) :
    (calculate_risk_score sc vol).risk_score
        = min ((sc : ℚ) * 25 + (vol / 100) * 10) 100
      ∧ 0 ≤ (calculate_risk_score sc vol).risk_score
      ∧ (calculate_risk_score sc vol).risk_score ≤ 100 := by
  have hb : (0 : ℚ) ≤ (sc : ℚ) * 25 := by positivity
  have hf : (0 : ℚ) ≤ (vol / 100) * 10 := by positivity
  rw [risk_score_val]
  refine ⟨?_, ?_, min_le_right _ _⟩
  · rcases le_or_lt ((sc : ℚ) * 25) 100 with h | h
    · rw [min_eq_left h]
    · rw [min_eq_right h.le, min_eq_right (by linarith), min_eq_right (by linarith)]
  · have h0 : (0 : ℚ) ≤ min ((sc : ℚ) * 25) 100 := le_min hb (by norm_num)
    exact le_min (by linarith) (by norm_num)

/-- C1 witness at signal_count = 3, volatility = 50. -/
theorem C1_risk_score_formula_witness :
    (calculate_risk_score 3 50).risk_score
        = min ((3 : ℚ) * 25 + ((50 : ℚ) / 100) * 10) 100
      ∧ 0 ≤ (calculate_risk_score 3 50).risk_score
      ∧ (calculate_risk_score 3 50).risk_score ≤ 100 :=
  C1_risk_score_formula 3 50 (by norm_num)

/-- C2: the classification partitions the final score into left-closed
intervals: [0, 30) LOW, [30, 50) MODERATE, [50, 70) HIGH and [70, 100]
CRITICAL; in particular a score of exactly 30 is MODERATE, exactly 50 is
HIGH and exactly 70 is CRITICAL. -/
theorem C2_classification_intervals (sc : ℕ) (vol : ℚ) :
    ((calculate_risk_score sc vol).risk_score < 30 →
        (calculate_risk_score sc vol).classification = "LOW")
    ∧ (30 ≤ (calculate_risk_score sc vol).risk_score →
        (calculate_risk_score sc vol).risk_score < 50 →
        (calculate_risk_score sc vol).classification = "MODERATE")
    ∧ (50 ≤ (calculate_risk_score sc vol).risk_score →
        (calculate_risk_score sc vol).risk_score < 70 →
        (calculate_risk_score sc vol).classification = "HIGH")
    ∧ (70 ≤ (calculate_risk_score sc vol).risk_score →
        (calculate_risk_score sc vol).classification = "CRITICAL") := by
  rw [classification_val]
  refine ⟨fun h1 => ?_, fun h1 h2 => ?_, fun h1 h2 => ?_, fun h1 => ?_⟩ <;>
    split_ifs <;> first | rfl | linarith

/-- C2 witness: final scores of exactly 30 (one signal, volatility 50),
exactly 50 (two signals, volatility 0) and exactly 70 (two signals,
volatility 200) land in MODERATE, HIGH and CRITICAL respectively. -/
theorem C2_classification_intervals_witness :
    (calculate_risk_score 1 50).risk_score = 30
    ∧ (calculate_risk_score 1 50).classification = "MODERATE"
    ∧ (calculate_risk_score 2 0).risk_score = 50
    ∧ (calculate_risk_score 2 0).classification = "HIGH"
    ∧ (calculate_risk_score 2 200).risk_score = 70
    ∧ (calculate_risk_score 2 200).classification = "CRITICAL" := by
  have h30 : (calculate_risk_score 1 50).risk_score = 30 := by
    rw [risk_score_val]; norm_num [min_def]
  have h50 : (calculate_risk_score 2 0).risk_score = 50 := by
    rw [risk_score_val]; norm_num [min_def]
  have h70 : (calculate_risk_score 2 200).risk_score = 70 := by
    rw [risk_score_val]; norm_num [min_def]
  refine ⟨h30, (C2_classification_intervals 1 50).2.1 (by rw [h30]) (by rw [h30]; norm_num),
    h50, (C2_classification_intervals 2 0).2.2.1 (by rw [h50]) (by rw [h50]; norm_num),
    h70, (C2_classification_intervals 2 200).2.2.2 (by rw [h70])⟩

/-- Helper: when the base term is at most 75, a final clamped score of 100
forces the volatility argument up to at least 250. -/
theorem risk_100_needs_vol (b vol : ℚ) (hb : b ≤ 75)
    (h100 : min (b + (vol / 100) * 10) 100 = 100) : 250 ≤ vol := by
  rcases le_or_lt (b + (vol / 100) * 10) 100 with h | h
  · rw [min_eq_left h] at h100
    linarith
  · linarith

/-- C3: detection evaluates the three predicates volatility > 20,
change < -5 and change < -2 in that fixed order, appends one named signal
per true predicate, and reports signal_count equal to the length of the
signals list; a summary with change -6 and volatility at most 20 yields
exactly the sharp-decline and negative-momentum signals, in that order. -/
theorem C3_detect_signals (md : MarketData) :
    (detect_crisis_signals md).signals
        = (if md.volatility_percent > 20 then ["HIGH VOLATILITY (>20%)"] else [])
          ++ (if md.price_change_percent < -5 then ["SHARP DECLINE (>5%)"] else [])
          ++ (if md.price_change_percent < -2 then ["NEGATIVE MOMENTUM (<-2%)"] else [])
      ∧ (detect_crisis_signals md).signal_count = (detect_crisis_signals md).signals.length
      ∧ (md.price_change_percent = -6 → md.volatility_percent ≤ 20 →
          (detect_crisis_signals md).signals
              = ["SHARP DECLINE (>5%)", "NEGATIVE MOMENTUM (<-2%)"]
            ∧ (detect_crisis_signals md).signal_count = 2) := by
  refine ⟨detect_signals_val md, detect_count_val md, fun hpc hvol => ?_⟩
  have hs : (detect_crisis_signals md).signals
      = ["SHARP DECLINE (>5%)", "NEGATIVE MOMENTUM (<-2%)"] := by
    rw [detect_signals_val, if_neg (by linarith), if_pos (by rw [hpc]; norm_num),
      if_pos (by rw [hpc]; norm_num)]
    rfl
  exact ⟨hs, by rw [detect_count_val, hs]; rfl⟩

/-- C3 witness at a concrete summary with change -6 and volatility 15. -/
theorem C3_detect_signals_witness :
    (detect_crisis_signals ⟨"X", 100, -6, 15, 1000, "DEMO"⟩).signals
        = ["SHARP DECLINE (>5%)", "NEGATIVE MOMENTUM (<-2%)"]
      ∧ (detect_crisis_signals ⟨"X", 100, -6, 15, 1000, "DEMO"⟩).signal_count = 2 :=
  (C3_detect_signals ⟨"X", 100, -6, 15, 1000, "DEMO"⟩).2.2 (by decide) (by decide)

/-- C6 counterexample: with zero signals and volatility 10 the code returns
risk score 1, not the base-variant value min(0 * 25, 100) = 0 — the
volatility term contributes to the score. -/
theorem C6_counterexample :
    (calculate_risk_score 0 10).risk_score = 1
      ∧ (calculate_risk_score 0 10).risk_score ≠ min ((0 : ℚ) * 25) 100 := by
  have h1 : (calculate_risk_score 0 10).risk_score = 1 := by
    rw [risk_score_val]; norm_num [min_def]
  exact ⟨h1, by rw [h1]; norm_num [min_def]⟩

/-- C6 amended: the scorer also adds the volatility term, so the
base-variant formula min(signal_count * 25, 100) holds exactly at
volatility_percent = 0, for every signal count. -/
theorem C6_base_formula_at_zero_volatility (sc : ℕ) :
    (calculate_risk_score sc 0).risk_score = min ((sc : ℚ) * 25) 100 := by
  rw [risk_score_val]
  have h : min ((sc : ℚ) * 25) 100 ≤ 100 := min_le_right _ _
  rw [show ((0 : ℚ) / 100) * 10 = 0 by norm_num, add_zero, min_eq_left h]

/-- C9: at most three signals fire, so the base term is at most 75, the
inner clamp min(signal_count * 25, 100) is the identity, and a risk score
of 100 forces volatility at least 250; with all three signals the score is
100 exactly when volatility is at least 250. -/
theorem C9_signal_count_bound (md : MarketData) (vol : ℚ) :
    (detect_crisis_signals md).signal_count ≤ 3
    ∧ (detect_crisis_signals md).signal_count * 25 ≤ 75
    ∧ min (((detect_crisis_signals md).signal_count : ℚ) * 25) 100
        = ((detect_crisis_signals md).signal_count : ℚ) * 25
    ∧ ((calculate_risk_score (detect_crisis_signals md).signal_count vol).risk_score = 100
        → 250 ≤ vol)
    ∧ ((detect_crisis_signals md).signal_count = 3 →
        ((calculate_risk_score 3 vol).risk_score = 100 ↔ 250 ≤ vol)) := by
  have h3 := detect_count_le_three md
  have hc : ((detect_crisis_signals md).signal_count : ℚ) ≤ 3 := by exact_mod_cast h3
  have hmin : min (((detect_crisis_signals md).signal_count : ℚ) * 25) 100
      = ((detect_crisis_signals md).signal_count : ℚ) * 25 :=
    min_eq_left (by linarith)
  have h75 : min (((3 : ℕ) : ℚ) * 25) 100 = 75 := by norm_num [min_def]
  refine ⟨h3, by omega, hmin, fun h100 => ?_, fun _ => ?_⟩
  · rw [risk_score_val, hmin] at h100
    exact risk_100_needs_vol _ vol (by linarith) h100
  · rw [risk_score_val, h75]
    constructor
    · intro h100
      exact risk_100_needs_vol 75 vol le_rfl h100
    · intro h250
      rw [min_eq_right (by linarith)]

/-- C9 witness: a summary firing all three signals, where volatility
argument 250 is exactly the threshold for a score of 100. -/
theorem C9_signal_count_bound_witness :
    (detect_crisis_signals ⟨"X", 100, -8, 30, 1000, "DEMO"⟩).signal_count ≤ 3
    ∧ ((calculate_risk_score 3 250).risk_score = 100 ↔ (250 : ℚ) ≤ 250) :=
  ⟨(C9_signal_count_bound ⟨"X", 100, -8, 30, 1000, "DEMO"⟩ 250).1,
   (C9_signal_count_bound ⟨"X", 100, -8, 30, 1000, "DEMO"⟩ 250).2.2.2.2 (by decide)⟩

/-- A symbol produces no entry exactly when its trimmed fetch is an error. -/
theorem entryFor_eq_none_iff (fetch : String → FetchResult) (s : String) :
    entryFor fetch s = none ↔ ∃ msg, fetch s.trim = FetchResult.error msg := by
  unfold entryFor
  cases h : fetch s.trim with
  | error msg => simp [h]
  | ok md => simp [h]

/-- A produced entry keeps the original symbol string and copies price,
change and volatility from the fetched summary of the trimmed symbol. -/
theorem entryFor_eq_some_spec (fetch : String → FetchResult) (s : String)
    (e : PortfolioEntry) (h : entryFor fetch s = some e) :
    e.symbol = s ∧ ∃ md, fetch s.trim = FetchResult.ok md
      ∧ e.price = md.current_price
      ∧ e.change = md.price_change_percent
      ∧ e.volatility = md.volatility_percent := by
  unfold entryFor at h
  cases hf : fetch s.trim with
  | error msg => rw [hf] at h; exact absurd h (by simp)
  | ok md =>
    rw [hf] at h
    simp only [Option.some.injEq] at h
    subst h
    exact ⟨rfl, md, rfl, rfl, rfl, rfl⟩

/-- The loop of `analyze_portfolio` appends one entry per successful symbol
in input order and accumulates the sum of risk scores and the two counters. -/
theorem portfolioLoop_val (fetch : String → FetchResult) (symbols : List String)
    (st : LoopState) :
    portfolioLoop fetch symbols st =
      { portfolio_data := st.portfolio_data ++ symbols.filterMap (entryFor fetch),
        total_risk := st.total_risk
          + ((symbols.filterMap (entryFor fetch)).map PortfolioEntry.risk_score).sum,
        high_risk_assets := st.high_risk_assets
          + ((symbols.filterMap (entryFor fetch)).map
              (fun e => if e.risk_score > 50 then 1 else 0)).sum,
        crisis_alerts := st.crisis_alerts
          + ((symbols.filterMap (entryFor fetch)).map
              (fun e => if e.signals > 0 then 1 else 0)).sum } := by
  induction symbols generalizing st with
  | nil => simp [portfolioLoop]
  | cons s rest ih =>
    simp only [portfolioLoop, List.filterMap_cons]
    cases h : entryFor fetch s with
    | none => rw [ih]
    | some e =>
      rw [ih]
      simp only [LoopState.mk.injEq, List.map_cons, List.sum_cons]
      refine ⟨by simp, by ring, by omega, by omega⟩

/-- C4: analyze_portfolio answers the error "No valid symbols" exactly when
no symbol yields an entry (empty input or every trimmed fetch fails); a
successful result is never empty and consists of exactly the per-symbol
entries, failing symbols silently skipped. -/
theorem C4_error_no_valid_symbols (fetch : String → FetchResult) (symbols : List String) :
    (analyze_portfolio fetch symbols = Except.error "No valid symbols"
      ↔ ∀ s ∈ symbols, ∃ msg, fetch s.trim = FetchResult.error msg)
    ∧ (∀ res, analyze_portfolio fetch symbols = Except.ok res →
        res.portfolio_data = symbols.filterMap (entryFor fetch)
          ∧ res.portfolio_data ≠ []) := by
  have hloop := portfolioLoop_val fetch symbols ⟨[], 0, 0, 0⟩
  have hiff : (symbols.filterMap (entryFor fetch)) = []
      ↔ ∀ s ∈ symbols, ∃ msg, fetch s.trim = FetchResult.error msg := by
    rw [List.filterMap_eq_nil_iff]
    constructor
    · intro hall s hs
      exact (entryFor_eq_none_iff fetch s).mp (hall s hs)
    · intro hall s hs
      exact (entryFor_eq_none_iff fetch s).mpr (hall s hs)
  constructor
  · rw [analyze_portfolio, hloop]
    simp only [List.nil_append]
    by_cases hE : (symbols.filterMap (entryFor fetch)) = []
    · rw [if_pos (by simp [hE])]
      simp only [true_iff]
      exact hiff.mp hE
    · rw [if_neg (by simp [hE])]
      constructor
      · intro h
        exact absurd h (by simp)
      · intro hall
        exact absurd (hiff.mpr hall) hE
  · intro res hres
    rw [analyze_portfolio, hloop] at hres
    simp only [List.nil_append] at hres
    by_cases hE : (symbols.filterMap (entryFor fetch)) = []
    · rw [if_pos (by simp [hE])] at hres
      exact absurd hres (by simp)
    · rw [if_neg (by simp [hE])] at hres
      simp only [Except.ok.injEq] at hres
      subst hres
      exact ⟨rfl, hE⟩

/-- The symbols of the produced entries are exactly the successfully
analyzed input symbols, kept in input order. -/
theorem filterMap_entry_symbols (fetch : String → FetchResult) (symbols : List String) :
    (symbols.filterMap (entryFor fetch)).map PortfolioEntry.symbol
      = symbols.filter (fun s => (entryFor fetch s).isSome) := by
  induction symbols with
  | nil => rfl
  | cons s rest ih =>
    simp only [List.filterMap_cons, List.filter_cons]
    cases h : entryFor fetch s with
    | none => simpa using ih
    | some e =>
      have hsym : e.symbol = s := (entryFor_eq_some_spec fetch s e h).1
      simp [hsym, ih]

/-- C5: on every successful analysis the reported portfolio risk is the
arithmetic mean of the entries risk scores rounded to two decimals, and the
entries are the per-symbol results in input symbol order. -/
theorem C5_portfolio_mean_and_order (fetch : String → FetchResult)
    (symbols : List String) (res : PortfolioResult)
    (h : analyze_portfolio fetch symbols = Except.ok res) :
    res.portfolio_risk
        = round2 ((res.portfolio_data.map PortfolioEntry.risk_score).sum
            / (res.portfolio_data.length : ℚ))
      ∧ res.portfolio_data = symbols.filterMap (entryFor fetch)
      ∧ res.portfolio_data.map PortfolioEntry.symbol
          = symbols.filter (fun s => (entryFor fetch s).isSome) := by
  rw [analyze_portfolio, portfolioLoop_val fetch symbols ⟨[], 0, 0, 0⟩] at h
  simp only [List.nil_append] at h
  by_cases hE : (symbols.filterMap (entryFor fetch)) = []
  · rw [if_pos (by simp [hE])] at h
    exact absurd h (by simp)
  · rw [if_neg (by simp [hE])] at h
    simp only [Except.ok.injEq] at h
    subst h
    exact ⟨by simp, rfl, filterMap_entry_symbols fetch symbols⟩

/-- C7: the recommendation of a successful analysis takes one of exactly
three values, chosen by the breakpoints below 30, below 50 and otherwise on
the unrounded mean risk of the entries; the code realizes the Monitor,
Review and Rebalance tiers as the strings "Monitor", "Review Quarterly" and
"Rebalance Immediately". -/
theorem C7_recommendation_breakpoints (fetch : String → FetchResult)
    (symbols : List String) (res : PortfolioResult)
    (h : analyze_portfolio fetch symbols = Except.ok res) :
    res.recommendation
        = (if (res.portfolio_data.map PortfolioEntry.risk_score).sum
              / (res.portfolio_data.length : ℚ) < 30 then "Monitor"
           else if (res.portfolio_data.map PortfolioEntry.risk_score).sum
              / (res.portfolio_data.length : ℚ) < 50 then "Review Quarterly"
           else "Rebalance Immediately")
      ∧ (res.recommendation = "Monitor" ∨ res.recommendation = "Review Quarterly"
          ∨ res.recommendation = "Rebalance Immediately") := by
  rw [analyze_portfolio, portfolioLoop_val fetch symbols ⟨[], 0, 0, 0⟩] at h
  simp only [List.nil_append] at h
  by_cases hE : (symbols.filterMap (entryFor fetch)) = []
  · rw [if_pos (by simp [hE])] at h
    exact absurd h (by simp)
  · rw [if_neg (by simp [hE])] at h
    simp only [Except.ok.injEq] at h
    subst h
    refine ⟨by simp, ?_⟩
    dsimp only
    split_ifs <;> simp

/-- C10: every entry of a successful analysis keeps its original input
symbol string untrimmed, while the fetch that produced it was made with the
whitespace-trimmed symbol. -/
theorem C10_symbol_kept_untrimmed (fetch : String → FetchResult)
    (symbols : List String) (res : PortfolioResult)
    (h : analyze_portfolio fetch symbols = Except.ok res) :
    ∀ e ∈ res.portfolio_data, e.symbol ∈ symbols
      ∧ ∃ md, fetch e.symbol.trim = FetchResult.ok md
        ∧ e.price = md.current_price
        ∧ e.change = md.price_change_percent
        ∧ e.volatility = md.volatility_percent := by
  intro e he
  have hdata : res.portfolio_data = symbols.filterMap (entryFor fetch) :=
    ((C4_error_no_valid_symbols fetch symbols).2 res h).1
  rw [hdata] at he
  obtain ⟨s, hs, hsome⟩ := List.mem_filterMap.mp he
  obtain ⟨hsym, md, hmd, hprice, hchange, hvol⟩ := entryFor_eq_some_spec fetch s e hsome
  subst hsym
  exact ⟨hs, md, hmd, hprice, hchange, hvol⟩

/-- C8: the memoised fetch returns identical results on two calls with the
same (symbol, period) arguments while the underlying compute is unchanged —
for any compute function, and in particular for the demo-mode
fetch_market_data. -/
theorem C8_fetch_memo_idempotent (cache : Cache) (symbol period : String) :
    (∀ f : String → String → FetchResult,
      (memoFetch f (memoFetch f cache symbol period).2 symbol period).1
        = (memoFetch f cache symbol period).1)
    ∧ (memoFetch fetch_market_data
        (memoFetch fetch_market_data cache symbol period).2 symbol period).1
        = (memoFetch fetch_market_data cache symbol period).1 := by
  have key : ∀ f : String → String → FetchResult,
      (memoFetch f (memoFetch f cache symbol period).2 symbol period).1
        = (memoFetch f cache symbol period).1 := by
    intro f
    unfold memoFetch
    cases h : List.find? (fun e => decide (e.1 = (symbol, period))) cache with
    | some e => simp [h]
    | none =>
      simp only [h]
      rw [List.find?_cons_of_pos _ (by simp)]
  exact ⟨key, key fetch_market_data⟩

/-- Evaluation of the one-symbol analysis through the succeeding stub. -/
theorem analyze_fetchOkW_eval : analyze_portfolio fetchOkW ["A"] = Except.ok resW := by
  have he : entryFor fetchOkW "A" = some ⟨"A", 100, 0, 0, 0, "LOW", 0⟩ := by
    norm_num [entryFor, fetchOkW, mdW, detect_crisis_signals, calculate_risk_score, min_def]
  have hround : round2 (0 : ℚ) = 0 := by
    norm_num [round2, roundHalfToEven]
  simp only [analyze_portfolio, portfolioLoop, he]
  norm_num [resW, hround]

/-- Evaluation of the whitespace-symbol analysis through the stub. -/
theorem analyze_fetchOkW_ws_eval :
    analyze_portfolio fetchOkW [" A "] = Except.ok resW2 := by
  have he : entryFor fetchOkW " A " = some ⟨" A ", 100, 0, 0, 0, "LOW", 0⟩ := by
    norm_num [entryFor, fetchOkW, mdW, detect_crisis_signals, calculate_risk_score, min_def]
  have hround : round2 (0 : ℚ) = 0 := by
    norm_num [round2, roundHalfToEven]
  simp only [analyze_portfolio, portfolioLoop, he]
  norm_num [resW2, hround]

/-- C4 witness: with every fetch failing, the single-symbol analysis
returns the error result. -/
theorem C4_error_no_valid_symbols_witness :
    analyze_portfolio fetchErrW ["AAPL"] = Except.error "No valid symbols" :=
  (C4_error_no_valid_symbols fetchErrW ["AAPL"]).1.mpr (fun s _ => ⟨"boom", rfl⟩)

/-- C5 witness at the concrete one-symbol analysis. -/
theorem C5_portfolio_mean_and_order_witness :
    resW.portfolio_risk
        = round2 ((resW.portfolio_data.map PortfolioEntry.risk_score).sum
            / (resW.portfolio_data.length : ℚ))
      ∧ resW.portfolio_data = ["A"].filterMap (entryFor fetchOkW)
      ∧ resW.portfolio_data.map PortfolioEntry.symbol
          = ["A"].filter (fun s => (entryFor fetchOkW s).isSome) :=
  C5_portfolio_mean_and_order fetchOkW ["A"] resW analyze_fetchOkW_eval

/-- C7 witness at the concrete one-symbol analysis. -/
theorem C7_recommendation_breakpoints_witness :
    resW.recommendation
        = (if (resW.portfolio_data.map PortfolioEntry.risk_score).sum
              / (resW.portfolio_data.length : ℚ) < 30 then "Monitor"
           else if (resW.portfolio_data.map PortfolioEntry.risk_score).sum
              / (resW.portfolio_data.length : ℚ) < 50 then "Review Quarterly"
           else "Rebalance Immediately")
      ∧ (resW.recommendation = "Monitor" ∨ resW.recommendation = "Review Quarterly"
          ∨ resW.recommendation = "Rebalance Immediately") :=
  C7_recommendation_breakpoints fetchOkW ["A"] resW analyze_fetchOkW_eval

/-- C10 witness: the whitespace-padded symbol " A " is analysed successfully
and its entry keeps the padding. -/
theorem C10_symbol_kept_untrimmed_witness :
    (eW.symbol ∈ [" A "]
      ∧ ∃ md, fetchOkW eW.symbol.trim = FetchResult.ok md
        ∧ eW.price = md.current_price
        ∧ eW.change = md.price_change_percent
        ∧ eW.volatility = md.volatility_percent)
    ∧ eW.symbol = " A " :=
  ⟨C10_symbol_kept_untrimmed fetchOkW [" A "] resW2 analyze_fetchOkW_ws_eval eW
      (by simp [resW2, eW]),
   rfl⟩
